import Mathlib

/-!
Shallow embedding of the DICOM viewer application (test4.py): slice
navigation, window/level computation, folder and archive loading, the
archive browser's database accesses, and instance materialisation.
Machine integers are modelled as Int/Nat, Python floats as Rat, Python
exceptions as Except / Option, and external libraries (VTK, PyMongo,
pydicom, the filesystem) as explicit oracle parameters.
-/

/-- Python helpers: first backslash-separated field of a string,
mirroring str(value).split(chr 92)[0]. -/
def firstSlashVal (s : String) : String :=
  String.mk (s.data.takeWhile (fun c => c != '\\'))

/-- Python str.lower (ASCII case folding, as used on file names). -/
def pyToLower (s : String) : String :=
  String.mk (s.data.map Char.toLower)

/-- Python str.endswith. -/
def pyEndsWith (s pat : String) : Bool :=
  List.isSuffixOf pat.data s.data

/-- Stable insertion into a list sorted on an integer key: the new
element goes after all existing elements with key at most its own,
exactly as Python's stable sort orders equal keys. -/
def pyInsort {α : Type} (k : α → ℤ) (x : α) : List α → List α
  | [] => [x]
  | y :: ys => if k y ≤ k x then y :: pyInsort k x ys else x :: y :: ys

/-- Stable ascending sort on an integer key (list.sort(key=...)). -/
def pySortBy {α : Type} (k : α → ℤ) (l : List α) : List α :=
  l.foldl (fun acc x => pyInsort k x acc) []

/-! ## Slice navigation (CustomInteractorStyle) -/

/-- State of CustomInteractorStyle: current slice index and bounds. -/
structure SliceState where
  slice : ℤ
  min_slice : ℤ
  max_slice : ℤ
deriving Repr, DecidableEq

/-- MouseWheelForwardEvent handler: increment the slice when strictly
below max_slice, also SetSlice/Render (not modelled as data). -/
def move_slice_forward (s : SliceState) : SliceState :=
  if s.slice < s.max_slice then { s with slice := s.slice + 1 } else s

/-- MouseWheelBackwardEvent handler: decrement the slice when strictly
above min_slice. -/
def move_slice_backward (s : SliceState) : SliceState :=
  if s.min_slice < s.slice then { s with slice := s.slice - 1 } else s

/-- KeyPressEvent handler: Up forwards, Down backwards, others ignored. -/
def key_press_event (key : String) (s : SliceState) : SliceState :=
  if key = "Up" then move_slice_forward s
  else if key = "Down" then move_slice_backward s
  else s

/-- The slice-navigation events the interactor style observes. -/
inductive NavEvent where
  | wheelForward
  | wheelBackward
  | keyPress (key : String)
deriving Repr, DecidableEq

/-- Dispatch one event to its observer callback. -/
def handle_nav_event : NavEvent → SliceState → SliceState
  | NavEvent.wheelForward, s => move_slice_forward s
  | NavEvent.wheelBackward, s => move_slice_backward s
  | NavEvent.keyPress k, s => key_press_event k s

/-- CustomInteractorStyle.__init__: slice starts at GetSliceMin,
min_slice = GetSliceMin, max_slice = GetSliceMax. -/
def init_interactor_style (sliceMin sliceMax : ℤ) : SliceState :=
  { slice := sliceMin, min_slice := sliceMin, max_slice := sliceMax }

/-- Run a sequence of navigation events. -/
def run_nav_events (evs : List NavEvent) (s : SliceState) : SliceState :=
  evs.foldl (fun t e => handle_nav_event e t) s

/-! ## DICOMViewerWidget state and window/level computation -/

/-- The pydicom dataset fields set_ww_wl touches: the two windowing
tags as raw string values (none when the tag is absent), and the pixel
array (none when accessing ds.pixel_array raises). -/
structure Dataset where
  ww_tag : Option String
  wl_tag : Option String
  pixel_array : Option (List ℤ)
deriving Repr, DecidableEq

/-- Python min over a nonempty collection, seeded with its head. -/
def pyMin (x : ℤ) (xs : List ℤ) : ℤ := xs.foldl min x

/-- Python max over a nonempty collection, seeded with its head. -/
def pyMax (x : ℤ) (xs : List ℤ) : ℤ := xs.foldl max x

/-- The data-carrying state of DICOMViewerWidget together with the VTK
effects the claims mention (color window/level set on the image viewer,
current slice-text overlay, render and update_viewer counters). -/
structure ViewerState where
  app_data_dir : String
  dicom_folder : String
  dicom_files : List String
  view_orientation : String
  window_width : ℚ
  window_level : ℚ
  reader : Option String
  overlay : String
  color_window : Option ℚ
  color_level : Option ℚ
  slice_orientation : String
  reslice : Bool
  current_slice : Option ℤ
  rendered : ℕ
  updates : ℕ
deriving Repr, DecidableEq

/-- DICOMViewerWidget.__init__ together with setup_vtk: empty folder
and file list, axial orientation, default window 400/50, the initial
"No DICOM loaded" overlay, and no reader yet. -/
def initViewerState (appDir : String) : ViewerState :=
  { app_data_dir := appDir
    dicom_folder := ""
    dicom_files := []
    view_orientation := "axial"
    window_width := 400
    window_level := 50
    reader := none
    overlay := "No DICOM loaded"
    color_window := none
    color_level := none
    slice_orientation := "XY"
    reslice := false
    current_slice := none
    rendered := 0
    updates := 0 }

/-- calculate_window_from_pixels: WW/WL from the pixel extrema. When
ds.pixel_array raises (missing pixel data) or the array is empty
(numpy min raises), the exception propagates to set_ww_wl's handler,
leaving the state as received. -/
def calculate_window_from_pixels (ds : Dataset) (st : ViewerState) : ViewerState :=
  match ds.pixel_array with
  | some (x :: xs) =>
      { st with
        window_level := (((pyMax x xs + pyMin x xs : ℤ) : ℚ) / 2)
        window_width := ((pyMax x xs - pyMin x xs : ℤ) : ℚ) }
  | _ => st

/-- set_ww_wl: read the first file of dicom_files (pyFloat models
Python float(), dcmread models pydicom.dcmread, returning none when the
call raises). All exceptions are caught inside this method. Mirrors the
source's assignment order: window_width is assigned before float() is
attempted on the level string, so a level-parse failure falls back to
the pixel calculation with the width already overwritten. -/
def set_ww_wl (pyFloat : String → Option ℚ) (dcmread : String → Option Dataset)
    (st : ViewerState) : ViewerState :=
  match st.dicom_files with
  | [] => st
  | first :: _ =>
    match dcmread first with
    | none => st
    | some ds =>
      match ds.ww_tag, ds.wl_tag with
      | some ww, some wl =>
        match pyFloat (firstSlashVal ww) with
        | some w =>
          match pyFloat (firstSlashVal wl) with
          | some l => { st with window_width := w, window_level := l }
          | none => calculate_window_from_pixels ds { st with window_width := w }
        | none => calculate_window_from_pixels ds st
      | _, _ => calculate_window_from_pixels ds st

/-- update_viewer: rebuild the pipeline for the current orientation
(reslice for coronal/sagittal), apply WW/WL as color window/level,
install a fresh interactor style at GetSliceMin, and render twice
(image viewer and render window). slMin/slMax stand for the image
viewer's GetSliceMin/GetSliceMax after the pipeline is connected. -/
def update_viewer (slMin slMax : ℤ) (st : ViewerState) : ViewerState :=
  match st.reader with
  | none => st
  | some _ =>
    let st1 :=
      if st.view_orientation = "axial" then
        { st with slice_orientation := "XY", reslice := false }
      else if st.view_orientation = "coronal" then
        { st with slice_orientation := "XZ", reslice := true }
      else if st.view_orientation = "sagittal" then
        { st with slice_orientation := "YZ", reslice := true }
      else
        { st with reslice := true }
    { st1 with
      color_window := some st1.window_width
      color_level := some st1.window_level
      current_slice := some slMin
      overlay := "Slice Number " ++ toString (slMin + 1) ++ "/" ++ toString (slMax + 1)
      rendered := st1.rendered + 2
      updates := st1.updates + 1 }

/-- change_orientation: lower-case the combo-box text, then update the
viewer only when a reader already exists. -/
def change_orientation (slMin slMax : ℤ) (orientation : String) (st : ViewerState) :
    ViewerState :=
  let st1 := { st with view_orientation := pyToLower orientation }
  match st1.reader with
  | some _ => update_viewer slMin slMax st1
  | none => st1

/-- Body of load_dicom_series inside its try block. listing models
os.listdir (raising on a bad path), dims models the reader output's
GetDimensions. Errors carry the state at the moment of the raise. -/
def load_dicom_series_body (listing : String → Except String (List String))
    (dcmread : String → Option Dataset) (pyFloat : String → Option ℚ)
    (dims : String → ℕ × ℕ × ℕ) (slMin slMax : ℤ)
    (folder : String) (st : ViewerState) : Except (String × ViewerState) ViewerState :=
  let st1 := { st with dicom_folder := folder }
  match listing folder with
  | Except.error e => Except.error (e, st1)
  | Except.ok names =>
    let files := (names.filter (fun f => pyEndsWith (pyToLower f) ".dcm")).map
      (fun f => folder ++ "/" ++ f)
    let st2 := { st1 with dicom_files := files }
    match files with
    | [] => Except.error ("No DICOM files found in the selected folder", st2)
    | _ :: _ =>
      let st3 := set_ww_wl pyFloat dcmread st2
      let st4 := { st3 with reader := some folder }
      match dims folder with
      | (d1, d2, d3) =>
        if d1 = 0 ∨ d2 = 0 ∨ d3 = 0 then
          Except.error ("No valid DICOM data found", st4)
        else
          Except.ok (update_viewer slMin slMax st4)

/-- load_dicom_series: the body's exceptions are caught at the method
boundary, logged, shown in the slice-text overlay, and rendered. -/
def load_dicom_series (listing : String → Except String (List String))
    (dcmread : String → Option Dataset) (pyFloat : String → Option ℚ)
    (dims : String → ℕ × ℕ × ℕ) (slMin slMax : ℤ)
    (folder : String) (st : ViewerState) : ViewerState :=
  match load_dicom_series_body listing dcmread pyFloat dims slMin slMax folder st with
  | Except.ok v => v
  | Except.error (e, v) => { v with overlay := "Error: " ++ e, rendered := v.rendered + 1 }

/-- The console line load_dicom_series's boundary prints: its except
clause logs the caught exception (print at line 265) before putting it
in the overlay; nothing is printed at the boundary on success. -/
def load_dicom_series_logged (listing : String → Except String (List String))
    (dcmread : String → Option Dataset) (pyFloat : String → Option ℚ)
    (dims : String → ℕ × ℕ × ℕ) (slMin slMax : ℤ)
    (folder : String) (st : ViewerState) : Option String :=
  match load_dicom_series_body listing dcmread pyFloat dims slMin slMax folder st with
  | Except.ok _ => none
  | Except.error (e, _) => some ("Error loading DICOM series: " ++ e)

/-- load_dicom_archive: filter the paths through os.path.exists, bail
out with an overlay message when none remain, otherwise point the
reader at the cache directory (note: dicom_files is NOT assigned, the
source line is commented out), check the dimensions, update the viewer
and show the loaded count. All raises are caught and shown. -/
def load_dicom_archive (dims : String → ℕ × ℕ × ℕ) (slMin slMax : ℤ)
    (exists_ : String → Bool) (file_paths : List String) (st : ViewerState) : ViewerState :=
  match file_paths.filter exists_ with
  | [] => { st with overlay := "No valid DICOM files found", rendered := st.rendered + 1 }
  | _ :: _ =>
    let st1 := { st with dicom_folder := st.app_data_dir, reader := some st.app_data_dir }
    match dims st1.dicom_folder with
    | (d1, d2, d3) =>
      if d1 = 0 ∨ d2 = 0 ∨ d3 = 0 then
        { st1 with overlay := "Error: No valid DICOM data found", rendered := st1.rendered + 1 }
      else
        let st2 := update_viewer slMin slMax st1
        { st2 with
          overlay := "Loaded " ++ toString file_paths.length ++ " DICOM images"
          rendered := st2.rendered + 1 }

/-! ## Archive viewer: records, database operations, handlers -/

/-- A study document as the archive viewer reads it. -/
structure StudyRec where
  oid : String
  patient_ref : String
  study_uid : String
  study_description : String
  study_date : String
deriving Repr, DecidableEq

/-- A patient document. -/
structure PatientRec where
  patient_id : String
  name : String
deriving Repr, DecidableEq

/-- A series document: Mongo _id, owning study UID, series number. -/
structure SeriesRec where
  oid : String
  study_uid : String
  series_number : ℤ
deriving Repr, DecidableEq

/-- An instance document: owning series _id, instance number, and the
raw DICOM blob (none models a missing dicom_file key; an empty list is
an empty byte string — both falsy in Python). -/
structure InstanceRec where
  series_id : String
  instance_number : ℤ
  dicom_file : Option (List ℕ)
deriving Repr, DecidableEq

/-- The database operations the client could perform; the archive
viewer is claimed to emit only the two read forms. -/
inductive DbOp where
  | findSorted (coll : String) (key : String) (dir : ℤ)
  | findOne (coll : String)
  | insertOne (coll : String)
  | updateOne (coll : String)
  | deleteOne (coll : String)
deriving Repr, DecidableEq

/-- Whether a database operation only reads. -/
def DbOp.isRead : DbOp → Bool
  | DbOp.findSorted _ _ _ => true
  | DbOp.findOne _ => true
  | _ => false

/-- Python's study_date[:4]-study_date[4:6]-study_date[6:8] formatting,
applied only to a truthy (nonempty) string. -/
def fmtStudyDate (s : String) : String :=
  if s = "" then ""
  else (s.take 4) ++ "-" ++ ((s.drop 4).take 2) ++ "-" ++ ((s.drop 6).take 2)

/-- The per-study loop of refresh_studies: one patients.find_one per
study; when it returns no document, patient.get raises AttributeError
and the loop stops (rows appended so far stay in the model). Returns
(rows, database ops performed, raised message if any). -/
def refresh_loop (findPatient : StudyRec → Option PatientRec) :
    List StudyRec → List (String × String × String × String) × List DbOp × Option String
  | [] => ([], [], none)
  | s :: rest =>
    match findPatient s with
    | none =>
        ([], [DbOp.findOne "patients"],
         some "NoneType object has no attribute get")
    | some p =>
      let row := (p.patient_id, p.name, s.study_description, fmtStudyDate s.study_date)
      match refresh_loop findPatient rest with
      | (rows, ops, err) => (row :: rows, DbOp.findOne "patients" :: ops, err)

/-- Result of the refresh_studies handler: the rows shown in the tree
model, the final status-label text, the database ops performed, and
what the handler printed to the console — nothing, on every path: its
except clause only sets the status label. -/
structure RefreshResult where
  rows : List (String × String × String × String)
  status : String
  ops : List DbOp
  logged : Option String
deriving Repr, DecidableEq

/-- refresh_studies: issue studies.find().sort(created_at, -1), build a
row per study, catch any raise at the handler boundary and surface it
in the status label. findStudies models the cursor (raising on
connection failure). -/
def refresh_studies (findStudies : Except String (List StudyRec))
    (findPatient : StudyRec → Option PatientRec) : RefreshResult :=
  let q := DbOp.findSorted "studies" "created_at" (-1)
  match findStudies with
  | Except.error e =>
      { rows := [], status := "Error loading studies: " ++ e, ops := [q], logged := none }
  | Except.ok studies =>
    match refresh_loop findPatient studies with
    | (rows, ops, some e) =>
        { rows := rows, status := "Error loading studies: " ++ e, ops := q :: ops
          logged := none }
    | (rows, ops, none) =>
        { rows := rows
          status := "Loaded " ++ toString rows.length ++ " studies"
          ops := q :: ops
          logged := none }

/-- The database calls on_study_double_click makes, as oracles:
ObjectId parsing, studies.find_one, the sorted series query for a study
UID, and the sorted instances query for a series _id. Each may raise. -/
structure DbQ where
  objectId : String → Except String String
  findStudy : String → Except String (Option StudyRec)
  findSeries : String → Except String (List SeriesRec)
  findInstances : String → Except String (List InstanceRec)

/-- Mongo semantics of series.find({study_uid: uid}).sort(series_number, 1). -/
def mongoFindSeriesSorted (series : List SeriesRec) (uid : String) : List SeriesRec :=
  pySortBy (fun s => s.series_number) (series.filter (fun s => s.study_uid == uid))

/-- Mongo semantics of instances.find({series_id: sid}).sort(instance_number, 1). -/
def mongoFindInstancesSorted (instances : List InstanceRec) (sid : String) :
    List InstanceRec :=
  pySortBy (fun i => i.instance_number) (instances.filter (fun i => i.series_id == sid))

/-- Result of the on_study_double_click handler: the instance list
handed to prepare_dicom_viewer (when reached), the status-label text if
one was set, the database ops performed, and what the handler printed
to the console — nothing, on every path: its except clause only sets
the status label (prepare_dicom_viewer does its own printing, modelled
separately). -/
structure DblResult where
  prepared : Option (List InstanceRec)
  status : Option String
  ops : List DbOp
  logged : Option String
deriving Repr, DecidableEq

/-- on_study_double_click: look up the study, list its series sorted by
series_number, take the first, list that series' instances sorted by
instance_number, and hand them to prepare_dicom_viewer. Any raise is
caught at the boundary and surfaced in the status label; a missing
study document makes the subsequent subscript raise. -/
def on_study_double_click (q : DbQ) (study_id : String) : DblResult :=
  match q.objectId study_id with
  | Except.error e =>
      { prepared := none, status := some ("Error loading study: " ++ e), ops := []
        logged := none }
  | Except.ok oid =>
    match q.findStudy oid with
    | Except.error e =>
        { prepared := none, status := some ("Error loading study: " ++ e)
          ops := [DbOp.findOne "studies"], logged := none }
    | Except.ok none =>
        { prepared := none
          status := some "Error loading study: NoneType object is not subscriptable"
          ops := [DbOp.findOne "studies"], logged := none }
    | Except.ok (some study) =>
      match q.findSeries study.study_uid with
      | Except.error e =>
          { prepared := none, status := some ("Error loading study: " ++ e)
            ops := [DbOp.findOne "studies", DbOp.findSorted "series" "series_number" 1]
            logged := none }
      | Except.ok series_list =>
        match series_list with
        | [] =>
            { prepared := none, status := some "No series found for this study"
              ops := [DbOp.findOne "studies", DbOp.findSorted "series" "series_number" 1]
              logged := none }
        | first_series :: _ =>
          match q.findInstances first_series.oid with
          | Except.error e =>
              { prepared := none, status := some ("Error loading study: " ++ e)
                ops := [DbOp.findOne "studies", DbOp.findSorted "series" "series_number" 1,
                        DbOp.findSorted "instances" "instance_number" 1]
                logged := none }
          | Except.ok instances_list =>
            match instances_list with
            | [] =>
                { prepared := none, status := some "No DICOM instances found for this series"
                  ops := [DbOp.findOne "studies", DbOp.findSorted "series" "series_number" 1,
                          DbOp.findSorted "instances" "instance_number" 1]
                  logged := none }
            | _ :: _ =>
                { prepared := some instances_list, status := none
                  ops := [DbOp.findOne "studies", DbOp.findSorted "series" "series_number" 1,
                          DbOp.findSorted "instances" "instance_number" 1]
                  logged := none }

/-! ## Instance materialisation (prepare_dicom_viewer) -/

/-- Python's {n:04d} formatting. -/
def pad4 (n : ℕ) : String :=
  let s := toString n
  String.mk (List.replicate (4 - s.length) '0') ++ s

/-- The scratch-file name for the record at 0-based index i:
os.path.join(app_data_dir, "instance_" + (i+1) 04d + ".dcm"). -/
def instFilename (dir : String) (i : ℕ) : String :=
  dir ++ "/instance_" ++ pad4 (i + 1) ++ ".dcm"

/-- Write (create or overwrite) a file in the modelled directory. -/
def fsWrite : List (String × List ℕ) → String → List ℕ → List (String × List ℕ)
  | [], fn, bs => [(fn, bs)]
  | (g, cs) :: rest, fn, bs =>
    if g = fn then (fn, bs) :: rest else (g, cs) :: fsWrite rest fn bs

/-- Look a file up in the modelled directory. -/
def fsLookup : List (String × List ℕ) → String → Option (List ℕ)
  | [], _ => none
  | (g, cs) :: rest, f => if g = f then some cs else fsLookup rest f

/-- The per-record write loop of prepare_dicom_viewer, from index i:
skip a record whose dicom_file is missing or empty (falsy), skip a
record whose write raises (writeOk i false) — logging and continuing in
both cases — and append the successfully written filename to
temp_files. Returns the directory after the writes and temp_files. -/
def write_loop (dir : String) (writeOk : ℕ → Bool) :
    List InstanceRec → ℕ → List (String × List ℕ) → List (String × List ℕ) × List String
  | [], _, fs => (fs, [])
  | inst :: rest, i, fs =>
    match inst.dicom_file with
    | some (b :: bs) =>
      if writeOk i then
        let fn := instFilename dir i
        match write_loop dir writeOk rest (i + 1) (fsWrite fs fn (b :: bs)) with
        | (fs2, tfs) => (fs2, fn :: tfs)
      else write_loop dir writeOk rest (i + 1) fs
    | _ => write_loop dir writeOk rest (i + 1) fs

/-- get_instance_number: the file's InstanceNumber attribute, 0 on any
failure (readInst none models both a read error and a missing tag). -/
def get_instance_number (readInst : String → Option ℤ) (f : String) : ℤ :=
  (readInst f).getD 0

/-- The external behaviour prepare_dicom_viewer depends on: per-index
write success, pydicom validation of the first temp file, the
InstanceNumber used for sorting, the reader dimensions and slice range
used by load_dicom_archive, and the float/dcmread oracles the final
set_ww_wl call needs. -/
structure PrepOracle where
  writeOk : ℕ → Bool
  dcmreadOk : String → Bool
  readInst : String → Option ℤ
  dims : String → ℕ × ℕ × ℕ
  slMin : ℤ
  slMax : ℤ
  pyFloat : String → Option ℚ
  dcmread : String → Option Dataset

/-- The misindented verification block of prepare_dicom_viewer: it sits
INSIDE the directory-listing loop, so it runs once per file found in
the cache directory. Each iteration raises when temp_files is still
empty; a failed validation of temp_files[0] hits the undefined
temp_dir name (NameError) inside the except clause; otherwise it sorts
temp_files by instance number and calls load_dicom_archive again.
Returns (temp_files, viewer, load_dicom_archive call arguments, raised
message if any). -/
def verify_loop (o : PrepOracle) (fs : List (String × List ℕ)) :
    List String → List String → ViewerState → List (List String) →
    List String × ViewerState × List (List String) × Option String
  | [], tfs, v, calls => (tfs, v, calls, none)
  | _f :: rest, tfs, v, calls =>
    match tfs with
    | [] => (tfs, v, calls, some "No valid DICOM files were created")
    | t0 :: _ =>
      if o.dcmreadOk t0 then
        let sorted := pySortBy (get_instance_number o.readInst) tfs
        let v2 := load_dicom_archive o.dims o.slMin o.slMax
          (fun f => (fsLookup fs f).isSome) sorted v
        verify_loop o fs rest sorted v2 (calls ++ [sorted])
      else (tfs, v, calls, some "name temp_dir is not defined")

/-- Result of prepare_dicom_viewer: the cache directory contents, the
final temp_files, every argument list load_dicom_archive was called
with, the parent viewer's state, and the message logged at the handler
boundary (the boundary only prints — it never touches a label). -/
structure PrepareResult where
  fs : List (String × List ℕ)
  temp_files : List String
  load_calls : List (List String)
  viewer : ViewerState
  logged : Option String
deriving Repr, DecidableEq

/-- prepare_dicom_viewer: write the blobs to scratch files, then run
the (misindented) verification loop over the directory listing, then —
when temp_files is nonempty and nothing raised — call the parent's
set_ww_wl. Every raise is caught at the boundary and only printed. -/
def prepare_dicom_viewer (o : PrepOracle) (instances : List InstanceRec)
    (fs0 : List (String × List ℕ)) (v0 : ViewerState) : PrepareResult :=
  match write_loop v0.app_data_dir o.writeOk instances 0 fs0 with
  | (fs1, tfs) =>
    let listing := fs1.map (fun p => p.1)
    match verify_loop o fs1 listing tfs v0 [] with
    | (tfs2, v2, calls, some e) =>
        { fs := fs1, temp_files := tfs2, load_calls := calls, viewer := v2
          logged := some ("Error preparing DICOM viewer: " ++ e) }
    | (tfs2, v2, calls, none) =>
      match tfs2 with
      | [] => { fs := fs1, temp_files := tfs2, load_calls := calls, viewer := v2, logged := none }
      | _ :: _ =>
          { fs := fs1, temp_files := tfs2, load_calls := calls
            viewer := set_ww_wl o.pyFloat o.dcmread v2, logged := none }

/-- Result of the upload handler: the text shown to the user in a
modal QMessageBox (information on success, critical on failure — the
widget has no status label or overlay of its own), and what the
handler printed to the console — nothing, on every path. -/
structure UploadResult where
  message_box : Option String
  logged : Option String
deriving Repr, DecidableEq

/-- upload_dicom_folder: when a folder was chosen, call upload_folder
(from upload.py, modelled as a raising oracle) and report success or
failure in a message box; nothing is printed. -/
def upload_dicom_folder (folder : Option String) (up : Except String Unit) : UploadResult :=
  match folder with
  | none => { message_box := none, logged := none }
  | some _ =>
    match up with
    | Except.ok _ =>
        { message_box := some "DICOM files uploaded successfully!", logged := none }
    | Except.error e =>
        { message_box := some ("Upload failed: " ++ e), logged := none }


/-! ## Concrete data used by closed witnesses -/

/-- A one-study archive used by concrete witnesses. -/
def wStudy : StudyRec :=
  { oid := "i", patient_ref := "p", study_uid := "u"
    study_description := "", study_date := "" }

/-- Concrete database query oracles over a tiny archive. -/
def wDbQ : DbQ :=
  { objectId := fun s => Except.ok s
    findStudy := fun _ => Except.ok (some wStudy)
    findSeries := fun _ => Except.ok [{ oid := "s1", study_uid := "u", series_number := 1 }]
    findInstances := fun _ => Except.ok [] }

/-- A fully successful oracle for concrete prepare_dicom_viewer runs:
every write succeeds, validation passes, the reader reports a 2x2x2
volume. -/
def prepOracleOk : PrepOracle :=
  { writeOk := fun _ => true
    dcmreadOk := fun _ => true
    readInst := fun _ => none
    dims := fun _ => (2, 2, 2)
    slMin := 0
    slMax := 1
    pyFloat := fun _ => none
    dcmread := fun _ => none }

/-- Two archive instances with nonempty blobs. -/
def archiveInstances2 : List InstanceRec :=
  [{ series_id := "s", instance_number := 1, dicom_file := some [7] },
   { series_id := "s", instance_number := 2, dicom_file := some [8, 9] }]

/-! ## Lemmas and claim theorems -/

lemma move_slice_forward_bounds (s : SliceState)
    (h1 : s.min_slice ≤ s.slice) (h2 : s.slice ≤ s.max_slice) :
    (move_slice_forward s).min_slice = s.min_slice ∧
    (move_slice_forward s).max_slice = s.max_slice ∧
    s.min_slice ≤ (move_slice_forward s).slice ∧
    (move_slice_forward s).slice ≤ s.max_slice := by
  unfold move_slice_forward
  split
  · refine ⟨rfl, rfl, ?_, ?_⟩ <;> simp <;> omega
  · exact ⟨rfl, rfl, h1, h2⟩

lemma move_slice_backward_bounds (s : SliceState)
    (h1 : s.min_slice ≤ s.slice) (h2 : s.slice ≤ s.max_slice) :
    (move_slice_backward s).min_slice = s.min_slice ∧
    (move_slice_backward s).max_slice = s.max_slice ∧
    s.min_slice ≤ (move_slice_backward s).slice ∧
    (move_slice_backward s).slice ≤ s.max_slice := by
  unfold move_slice_backward
  split
  · refine ⟨rfl, rfl, ?_, ?_⟩ <;> simp <;> omega
  · exact ⟨rfl, rfl, h1, h2⟩

lemma handle_nav_event_bounds (e : NavEvent) (s : SliceState)
    (h1 : s.min_slice ≤ s.slice) (h2 : s.slice ≤ s.max_slice) :
    (handle_nav_event e s).min_slice = s.min_slice ∧
    (handle_nav_event e s).max_slice = s.max_slice ∧
    s.min_slice ≤ (handle_nav_event e s).slice ∧
    (handle_nav_event e s).slice ≤ s.max_slice := by
  cases e with
  | wheelForward => exact move_slice_forward_bounds s h1 h2
  | wheelBackward => exact move_slice_backward_bounds s h1 h2
  | keyPress k =>
    simp only [handle_nav_event]
    unfold key_press_event
    split
    · exact move_slice_forward_bounds s h1 h2
    · split
      · exact move_slice_backward_bounds s h1 h2
      · exact ⟨rfl, rfl, h1, h2⟩

lemma run_nav_events_bounds (evs : List NavEvent) :
    ∀ s : SliceState, s.min_slice ≤ s.slice → s.slice ≤ s.max_slice →
    (run_nav_events evs s).min_slice = s.min_slice ∧
    (run_nav_events evs s).max_slice = s.max_slice ∧
    s.min_slice ≤ (run_nav_events evs s).slice ∧
    (run_nav_events evs s).slice ≤ s.max_slice := by
  induction evs with
  | nil => intro s h1 h2; simp [run_nav_events]; omega
  | cons e rest ih =>
    intro s h1 h2
    have hstep := handle_nav_event_bounds e s h1 h2
    have hrest := ih (handle_nav_event e s) (hstep.1 ▸ hstep.2.2.1) (hstep.2.1 ▸ hstep.2.2.2)
    simp only [run_nav_events, List.foldl_cons] at *
    refine ⟨?_, ?_, ?_, ?_⟩ <;> omega

/-- C1: slice-navigation events increment/decrement by exactly one at
interior slices, are no-ops at the bounds, and from the initial state
(slice = min) the slice index stays within the closed interval
min..max after every event sequence. -/
theorem slice_navigation_bounded :
    (∀ s : SliceState,
      (s.slice < s.max_slice → move_slice_forward s = { s with slice := s.slice + 1 }) ∧
      (¬ s.slice < s.max_slice → move_slice_forward s = s) ∧
      (s.min_slice < s.slice → move_slice_backward s = { s with slice := s.slice - 1 }) ∧
      (¬ s.min_slice < s.slice → move_slice_backward s = s) ∧
      key_press_event "Up" s = move_slice_forward s ∧
      key_press_event "Down" s = move_slice_backward s) ∧
    (∀ sliceMin sliceMax : ℤ, sliceMin ≤ sliceMax → ∀ evs : List NavEvent,
      sliceMin ≤ (run_nav_events evs (init_interactor_style sliceMin sliceMax)).slice ∧
      (run_nav_events evs (init_interactor_style sliceMin sliceMax)).slice ≤ sliceMax) := by
  constructor
  · intro s
    refine ⟨fun h => ?_, fun h => ?_, fun h => ?_, fun h => ?_, ?_, ?_⟩
    · simp [move_slice_forward, h]
    · simp [move_slice_forward, h]
    · simp [move_slice_backward, h]
    · simp [move_slice_backward, h]
    · simp [key_press_event]
    · simp [key_press_event]
  · intro m M h evs
    have := run_nav_events_bounds evs (init_interactor_style m M)
      (by simp [init_interactor_style]) (by simpa [init_interactor_style] using h)
    simp only [init_interactor_style] at this ⊢
    exact ⟨this.1 ▸ this.2.2.1, this.2.1 ▸ this.2.2.2⟩

/-- Witness for C1 at a concrete state and event sequence. -/
theorem slice_navigation_bounded_witness :
    move_slice_forward { slice := 0, min_slice := 0, max_slice := 2 } =
      { slice := 1, min_slice := 0, max_slice := 2 } ∧
    (0 : ℤ) ≤ (run_nav_events
        [NavEvent.wheelForward, NavEvent.keyPress "Up", NavEvent.wheelBackward]
        (init_interactor_style 0 2)).slice ∧
    (run_nav_events [NavEvent.wheelForward, NavEvent.keyPress "Up", NavEvent.wheelBackward]
        (init_interactor_style 0 2)).slice ≤ 2 := by
  refine ⟨?_, ?_, ?_⟩
  · exact (slice_navigation_bounded.1 { slice := 0, min_slice := 0, max_slice := 2 }).1
      (by decide)
  · exact (slice_navigation_bounded.2 0 2 (by decide)
      [NavEvent.wheelForward, NavEvent.keyPress "Up", NavEvent.wheelBackward]).1
  · exact (slice_navigation_bounded.2 0 2 (by decide)
      [NavEvent.wheelForward, NavEvent.keyPress "Up", NavEvent.wheelBackward]).2

lemma update_viewer_dicom_files (slMin slMax : ℤ) (st : ViewerState) :
    (update_viewer slMin slMax st).dicom_files = st.dicom_files := by
  unfold update_viewer
  cases hr : st.reader with
  | none => rfl
  | some r =>
    repeat' split
    all_goals rfl

/-- C9: with no reader present, change_orientation only lower-cases the
orientation; every other field of the widget state — pipeline, window
width/level, folder, files — is unchanged and no render occurs. -/
theorem change_orientation_no_reader :
    ∀ (slMin slMax : ℤ) (o : String) (st : ViewerState), st.reader = none →
      change_orientation slMin slMax o st = { st with view_orientation := pyToLower o } ∧
      (change_orientation slMin slMax o st).window_width = st.window_width ∧
      (change_orientation slMin slMax o st).window_level = st.window_level ∧
      (change_orientation slMin slMax o st).dicom_folder = st.dicom_folder ∧
      (change_orientation slMin slMax o st).dicom_files = st.dicom_files ∧
      (change_orientation slMin slMax o st).color_window = st.color_window ∧
      (change_orientation slMin slMax o st).color_level = st.color_level ∧
      (change_orientation slMin slMax o st).rendered = st.rendered ∧
      (change_orientation slMin slMax o st).updates = st.updates := by
  intro slMin slMax o st h
  have hmain : change_orientation slMin slMax o st =
      { st with view_orientation := pyToLower o } := by
    unfold change_orientation
    simp [h]
  refine ⟨hmain, ?_, ?_, ?_, ?_, ?_, ?_, ?_, ?_⟩ <;> rw [hmain]

/-- Witness for C9: a fresh widget, orientation combo set to Coronal. -/
theorem change_orientation_no_reader_witness :
    change_orientation 0 0 "Coronal" (initViewerState "d") =
      { initViewerState "d" with view_orientation := pyToLower "Coronal" } ∧
    (change_orientation 0 0 "Coronal" (initViewerState "d")).rendered =
      (initViewerState "d").rendered := by
  have h := change_orientation_no_reader 0 0 "Coronal" (initViewerState "d") rfl
  exact ⟨h.1, h.2.2.2.2.2.2.2.1⟩

/-- C10: window width/level initialise to 400 and 50; set_ww_wl leaves
both unchanged when dicom_files is empty (IndexError) or when reading
the first file raises; and load_dicom_archive never assigns
dicom_files (the assignment is commented out in the source). -/
theorem window_defaults_atomic :
    ∀ (appDir : String) (pf : String → Option ℚ) (dr : String → Option Dataset)
      (st : ViewerState) (dims : String → ℕ × ℕ × ℕ) (slMin slMax : ℤ)
      (ex : String → Bool) (fps : List String),
      (initViewerState appDir).window_width = 400 ∧
      (initViewerState appDir).window_level = 50 ∧
      (st.dicom_files = [] → set_ww_wl pf dr st = st) ∧
      (∀ f rest, st.dicom_files = f :: rest → dr f = none → set_ww_wl pf dr st = st) ∧
      (load_dicom_archive dims slMin slMax ex fps st).dicom_files = st.dicom_files := by
  intro appDir pf dr st dims slMin slMax ex fps
  refine ⟨rfl, rfl, fun h => ?_, fun f rest h hf => ?_, ?_⟩
  · unfold set_ww_wl; rw [h]
  · unfold set_ww_wl; rw [h]; simp [hf]
  · unfold load_dicom_archive
    cases hfil : fps.filter ex with
    | nil => rfl
    | cons a l =>
      simp only []
      split
      · rfl
      · rw [update_viewer_dicom_files]

/-- Witness for C10: empty file list and a first file whose read raises. -/
theorem window_defaults_atomic_witness :
    (initViewerState "d").window_width = 400 ∧
    (initViewerState "d").window_level = 50 ∧
    set_ww_wl (fun _ => none) (fun _ => none) (initViewerState "d") = initViewerState "d" ∧
    set_ww_wl (fun _ => none) (fun _ => none)
      { initViewerState "d" with dicom_files := ["a.dcm"] } =
      { initViewerState "d" with dicom_files := ["a.dcm"] } := by
  have h := window_defaults_atomic "d" (fun _ => none) (fun _ => none)
    (initViewerState "d") (fun _ => (0, 0, 0)) 0 0 (fun _ => false) []
  have h2 := window_defaults_atomic "d" (fun _ => none) (fun _ => none)
    { initViewerState "d" with dicom_files := ["a.dcm"] } (fun _ => (0, 0, 0)) 0 0
    (fun _ => false) []
  exact ⟨h.1, h.2.1, h.2.2.1 rfl, h2.2.2.2.1 "a.dcm" [] rfl rfl⟩

/-- C2: set_ww_wl uses the windowing tags of the first file when both
are present and their first backslash-separated values parse as
floats; in every other case (a tag absent or a parse failure) it falls
back to the pixel midpoint and range. -/
theorem set_ww_wl_spec :
    ∀ (pf : String → Option ℚ) (dr : String → Option Dataset) (st : ViewerState)
      (f : String) (rest : List String) (ds : Dataset),
      st.dicom_files = f :: rest → dr f = some ds →
      ((∀ ww wl w l, ds.ww_tag = some ww → ds.wl_tag = some wl →
          pf (firstSlashVal ww) = some w → pf (firstSlashVal wl) = some l →
          (set_ww_wl pf dr st).window_width = w ∧ (set_ww_wl pf dr st).window_level = l) ∧
       (∀ x xs, ds.pixel_array = some (x :: xs) →
          (¬ ∃ ww wl w l, ds.ww_tag = some ww ∧ ds.wl_tag = some wl ∧
              pf (firstSlashVal ww) = some w ∧ pf (firstSlashVal wl) = some l) →
          (set_ww_wl pf dr st).window_level = ((pyMax x xs + pyMin x xs : ℤ) : ℚ) / 2 ∧
          (set_ww_wl pf dr st).window_width = ((pyMax x xs - pyMin x xs : ℤ) : ℚ))) := by
  intro pf dr st f rest ds h hdr
  constructor
  · intro ww wl w l h1 h2 h3 h4
    unfold set_ww_wl
    rw [h]
    simp [hdr, h1, h2, h3, h4]
  · intro x xs hpx hne
    unfold set_ww_wl
    rw [h]
    rcases hww : ds.ww_tag with _ | ww
    · simp [hdr, hww, calculate_window_from_pixels, hpx]
    · rcases hwl : ds.wl_tag with _ | wl
      · simp [hdr, hww, hwl, calculate_window_from_pixels, hpx]
      · rcases hpw : pf (firstSlashVal ww) with _ | w
        · simp [hdr, hww, hwl, hpw, calculate_window_from_pixels, hpx]
        · rcases hpl : pf (firstSlashVal wl) with _ | l
          · simp [hdr, hww, hwl, hpw, hpl, calculate_window_from_pixels, hpx]
          · exact absurd ⟨ww, wl, w, l, hww, hwl, hpw, hpl⟩ hne

/-- Witness for C2: a dataset whose tags parse, and one with a missing
width tag falling back to pixels 10..30. -/
theorem set_ww_wl_spec_witness :
    (set_ww_wl
        (fun s => if s = "400" then some 400 else if s = "50" then some 50 else none)
        (fun _ => some { ww_tag := some "400\\2000", wl_tag := some "50",
                         pixel_array := some [0, 100] })
        { initViewerState "d" with dicom_files := ["a.dcm"] }).window_width = 400 ∧
    (set_ww_wl (fun _ => none)
        (fun _ => some { ww_tag := none, wl_tag := some "50",
                         pixel_array := some [10, 30] })
        { initViewerState "d" with dicom_files := ["a.dcm"] }).window_level =
      ((pyMax 10 [30] + pyMin 10 [30] : ℤ) : ℚ) / 2 := by
  constructor
  · exact (set_ww_wl_spec
      (fun s => if s = "400" then some 400 else if s = "50" then some 50 else none)
      (fun _ => some { ww_tag := some "400\\2000", wl_tag := some "50",
                       pixel_array := some [0, 100] })
      { initViewerState "d" with dicom_files := ["a.dcm"] }
      "a.dcm" [] _ rfl rfl).1 "400\\2000" "50" 400 50 rfl rfl (by decide) (by decide) |>.1
  · exact (set_ww_wl_spec (fun _ => none)
      (fun _ => some { ww_tag := none, wl_tag := some "50", pixel_array := some [10, 30] })
      { initViewerState "d" with dicom_files := ["a.dcm"] }
      "a.dcm" [] _ rfl rfl).2 10 [30] rfl
      (by rintro ⟨ww, wl, w, l, hww, h2, h3, h4⟩; exact Option.noConfusion hww) |>.1

lemma set_ww_wl_frame (pf : String → Option ℚ) (dr : String → Option Dataset)
    (st : ViewerState) :
    (set_ww_wl pf dr st).dicom_files = st.dicom_files ∧
    (set_ww_wl pf dr st).reader = st.reader ∧
    (set_ww_wl pf dr st).updates = st.updates ∧
    (set_ww_wl pf dr st).rendered = st.rendered ∧
    (set_ww_wl pf dr st).overlay = st.overlay ∧
    (set_ww_wl pf dr st).view_orientation = st.view_orientation := by
  unfold set_ww_wl calculate_window_from_pixels
  repeat' split
  all_goals simp

lemma update_viewer_effects (slMin slMax : ℤ) (st : ViewerState) (r : String)
    (h : st.reader = some r) :
    (update_viewer slMin slMax st).updates = st.updates + 1 ∧
    (update_viewer slMin slMax st).rendered = st.rendered + 2 ∧
    (update_viewer slMin slMax st).reader = st.reader ∧
    (update_viewer slMin slMax st).dicom_files = st.dicom_files := by
  unfold update_viewer
  rw [h]
  repeat' split
  all_goals simp_all

/-- C7: load_dicom_series selects exactly the files with a
case-insensitive .dcm extension; with no such file, or with a
zero-dimension reader output, it shows an error in the slice-text
overlay and does not update the viewer; otherwise the reader is built
on the folder and the viewer is updated and rendered. -/
theorem load_dicom_series_spec :
    ∀ (listing : String → Except String (List String)) (dcmread : String → Option Dataset)
      (pyFloat : String → Option ℚ) (dims : String → ℕ × ℕ × ℕ) (slMin slMax : ℤ)
      (folder : String) (st : ViewerState) (names : List String)
      (files : List String) (res : ViewerState),
      listing folder = Except.ok names →
      files = (names.filter (fun f => pyEndsWith (pyToLower f) ".dcm")).map
        (fun f => folder ++ "/" ++ f) →
      res = load_dicom_series listing dcmread pyFloat dims slMin slMax folder st →
      (res.dicom_files = files ∧
       (files = [] →
          res.overlay = "Error: No DICOM files found in the selected folder" ∧
          res.updates = st.updates) ∧
       (∀ d1 d2 d3, files ≠ [] → dims folder = (d1, d2, d3) →
          (d1 = 0 ∨ d2 = 0 ∨ d3 = 0) →
          res.overlay = "Error: No valid DICOM data found" ∧
          res.updates = st.updates) ∧
       (∀ d1 d2 d3, files ≠ [] → dims folder = (d1, d2, d3) →
          ¬(d1 = 0 ∨ d2 = 0 ∨ d3 = 0) →
          res.reader = some folder ∧
          res.updates = st.updates + 1 ∧
          res.rendered = st.rendered + 2)) := by
  intro listing dcmread pyFloat dims slMin slMax folder st names files res hl hf hres
  subst hres
  cases files with
  | nil =>
    refine ⟨?_, fun _ => ⟨?_, ?_⟩, ?_, ?_⟩
    · simp only [load_dicom_series, load_dicom_series_body, hl, ← hf]
    · simp only [load_dicom_series, load_dicom_series_body, hl, ← hf]
      rfl
    · simp only [load_dicom_series, load_dicom_series_body, hl, ← hf]
    · intro d1 d2 d3 hne _ _; exact absurd rfl hne
    · intro d1 d2 d3 hne _ _; exact absurd rfl hne
  | cons f0 fs =>
    have hframe := set_ww_wl_frame pyFloat dcmread
      { st with dicom_folder := folder, dicom_files := f0 :: fs }
    rcases hdp : dims folder with ⟨d1, d2, d3⟩
    by_cases hz : d1 = 0 ∨ d2 = 0 ∨ d3 = 0
    · have hred : load_dicom_series listing dcmread pyFloat dims slMin slMax folder st =
          { set_ww_wl pyFloat dcmread { st with dicom_folder := folder, dicom_files := f0 :: fs }
            with reader := some folder,
                 overlay := "Error: No valid DICOM data found",
                 rendered := (set_ww_wl pyFloat dcmread
                   { st with dicom_folder := folder, dicom_files := f0 :: fs }).rendered + 1 } := by
        simp only [load_dicom_series, load_dicom_series_body, hl, ← hf, hdp, if_pos hz]
        rfl
      refine ⟨?_, ?_, ?_, ?_⟩
      · rw [hred]; exact hframe.1
      · intro hcontra; exact absurd hcontra (by simp)
      · intro e1 e2 e3 _ _ _
        exact ⟨by rw [hred], by rw [hred]; exact hframe.2.2.1⟩
      · intro e1 e2 e3 _ hde hnz
        injection hde with q1 q23
        injection q23 with q2 q3
        exact absurd (by rw [← q1, ← q2, ← q3]; exact hz) hnz
    · have hred : load_dicom_series listing dcmread pyFloat dims slMin slMax folder st =
          update_viewer slMin slMax
            { set_ww_wl pyFloat dcmread
                { st with dicom_folder := folder, dicom_files := f0 :: fs }
              with reader := some folder } := by
        simp only [load_dicom_series, load_dicom_series_body, hl, ← hf, hdp, if_neg hz]
      have hupd := update_viewer_effects slMin slMax
        { set_ww_wl pyFloat dcmread { st with dicom_folder := folder, dicom_files := f0 :: fs }
          with reader := some folder } folder rfl
      refine ⟨?_, ?_, ?_, ?_⟩
      · rw [hred, hupd.2.2.2]; exact hframe.1
      · intro hcontra; exact absurd hcontra (by simp)
      · intro e1 e2 e3 _ hde hze
        injection hde with q1 q23
        injection q23 with q2 q3
        exact absurd (by rw [q1, q2, q3]; exact hze) hz
      · intro e1 e2 e3 _ _ _
        refine ⟨by rw [hred, hupd.2.2.1], ?_, ?_⟩
        · rw [hred, hupd.1]
          show (set_ww_wl pyFloat dcmread _).updates + 1 = st.updates + 1
          rw [hframe.2.2.1]
        · rw [hred, hupd.2.1]
          show (set_ww_wl pyFloat dcmread _).rendered + 2 = st.rendered + 2
          rw [hframe.2.2.2.1]

/-- Witness for C7: a folder with one mixed-case .dcm file and one
other file, valid dimensions. -/
theorem load_dicom_series_spec_witness :
    (load_dicom_series (fun _ => Except.ok ["A.DCM", "note.txt"]) (fun _ => none)
        (fun _ => none) (fun _ => (2, 2, 2)) 0 1 "dir" (initViewerState "d")).dicom_files =
      ["dir/A.DCM"] ∧
    (load_dicom_series (fun _ => Except.ok ["A.DCM", "note.txt"]) (fun _ => none)
        (fun _ => none) (fun _ => (2, 2, 2)) 0 1 "dir" (initViewerState "d")).reader =
      some "dir" ∧
    (load_dicom_series (fun _ => Except.ok ["A.DCM", "note.txt"]) (fun _ => none)
        (fun _ => none) (fun _ => (2, 2, 2)) 0 1 "dir" (initViewerState "d")).updates =
      (initViewerState "d").updates + 1 := by
  have h := load_dicom_series_spec (fun _ => Except.ok ["A.DCM", "note.txt"]) (fun _ => none)
    (fun _ => none) (fun _ => (2, 2, 2)) 0 1 "dir" (initViewerState "d")
    ["A.DCM", "note.txt"] ["dir/A.DCM"] _ rfl (by decide) rfl
  have h4 := h.2.2.2 2 2 2 (by decide) rfl (by decide)
  exact ⟨h.1, h4.1, h4.2.1⟩

lemma mem_pyInsort {α : Type} (k : α → ℤ) (x a : α) (l : List α) :
    a ∈ pyInsort k x l ↔ a = x ∨ a ∈ l := by
  induction l with
  | nil => simp [pyInsort]
  | cons y ys ih =>
    unfold pyInsort
    split
    · simp only [List.mem_cons, ih]
      tauto
    · simp only [List.mem_cons]

lemma mem_pySortBy_aux {α : Type} (k : α → ℤ) (a : α) (l : List α) :
    ∀ acc, a ∈ l.foldl (fun acc x => pyInsort k x acc) acc ↔ a ∈ acc ∨ a ∈ l := by
  induction l with
  | nil => intro acc; simp
  | cons y ys ih =>
    intro acc
    simp only [List.foldl_cons, ih, mem_pyInsort, List.mem_cons]
    tauto

lemma mem_pySortBy {α : Type} (k : α → ℤ) (a : α) (l : List α) :
    a ∈ pySortBy k l ↔ a ∈ l := by
  unfold pySortBy
  rw [mem_pySortBy_aux]
  simp

lemma pairwise_pyInsort {α : Type} (k : α → ℤ) (x : α) (l : List α)
    (h : l.Pairwise (fun a b => k a ≤ k b)) :
    (pyInsort k x l).Pairwise (fun a b => k a ≤ k b) := by
  induction l with
  | nil => simp [pyInsort]
  | cons y ys ih =>
    rcases List.pairwise_cons.mp h with ⟨hy, hys⟩
    unfold pyInsort
    split
    · rename_i hle
      refine List.pairwise_cons.mpr ⟨?_, ih hys⟩
      intro b hb
      rcases (mem_pyInsort k x b ys).mp hb with rfl | hbys
      · exact hle
      · exact hy b hbys
    · rename_i hgt
      have hxy : k x ≤ k y := le_of_not_le hgt
      refine List.pairwise_cons.mpr ⟨?_, h⟩
      intro b hb
      rcases List.mem_cons.mp hb with rfl | hbys
      · exact hxy
      · exact le_trans hxy (hy b hbys)

lemma pairwise_pySortBy_aux {α : Type} (k : α → ℤ) (l : List α) :
    ∀ acc, acc.Pairwise (fun a b => k a ≤ k b) →
      (l.foldl (fun acc x => pyInsort k x acc) acc).Pairwise (fun a b => k a ≤ k b) := by
  induction l with
  | nil => intro acc h; simpa using h
  | cons y ys ih =>
    intro acc h
    simp only [List.foldl_cons]
    exact ih _ (pairwise_pyInsort k y acc h)

lemma pairwise_pySortBy {α : Type} (k : α → ℤ) (l : List α) :
    (pySortBy k l).Pairwise (fun a b => k a ≤ k b) :=
  pairwise_pySortBy_aux k l [] (by simp)

lemma pySortBy_head_min {α : Type} (k : α → ℤ) (l : List α) (h : α) (t : List α)
    (heq : pySortBy k l = h :: t) : ∀ x ∈ l, k h ≤ k x := by
  intro x hx
  have hmem : x ∈ pySortBy k l := (mem_pySortBy k x l).mpr hx
  rw [heq] at hmem
  have hp := pairwise_pySortBy k l
  rw [heq] at hp
  rcases List.mem_cons.mp hmem with rfl | hxt
  · exact le_refl _
  · exact (List.pairwise_cons.mp hp).1 x hxt

lemma refresh_loop_ops (fP : StudyRec → Option PatientRec) (l : List StudyRec) :
    ∀ op ∈ (refresh_loop fP l).2.1, op = DbOp.findOne "patients" := by
  induction l with
  | nil => simp [refresh_loop]
  | cons s rest ih =>
    intro op hop
    unfold refresh_loop at hop
    rcases hfp : fP s with _ | p
    · rw [hfp] at hop
      simp at hop
      exact hop
    · rw [hfp] at hop
      rcases hr : refresh_loop fP rest with ⟨rows, ops, err⟩
      rw [hr] at hop
      simp at hop
      rcases hop with rfl | hop
      · rfl
      · exact ih op (by rw [hr]; exact hop)

/-- C3: every database operation the archive viewer performs is a read,
and every multi-document query carries its sort key: studies by
created_at, series by series_number, instances by instance_number. -/
theorem db_access_read_only :
    ∀ (fS : Except String (List StudyRec)) (fP : StudyRec → Option PatientRec)
      (q : DbQ) (sid : String),
      (∀ op ∈ (refresh_studies fS fP).ops,
        (op = DbOp.findSorted "studies" "created_at" (-1) ∨
         op = DbOp.findOne "patients") ∧ op.isRead = true) ∧
      (∀ op ∈ (on_study_double_click q sid).ops,
        (op = DbOp.findOne "studies" ∨
         op = DbOp.findSorted "series" "series_number" 1 ∨
         op = DbOp.findSorted "instances" "instance_number" 1) ∧ op.isRead = true) := by
  intro fS fP q sid
  constructor
  · intro op hop
    have hform : op = DbOp.findSorted "studies" "created_at" (-1) ∨
        op = DbOp.findOne "patients" := by
      unfold refresh_studies at hop
      cases fS with
      | error e =>
        simp at hop
        exact Or.inl hop
      | ok studies =>
        rcases hr : refresh_loop fP studies with ⟨rows, ops, err⟩
        simp only [hr] at hop
        cases err with
        | none =>
          simp at hop
          rcases hop with rfl | hop
          · exact Or.inl rfl
          · exact Or.inr (refresh_loop_ops fP studies op (by rw [hr]; exact hop))
        | some e =>
          simp at hop
          rcases hop with rfl | hop
          · exact Or.inl rfl
          · exact Or.inr (refresh_loop_ops fP studies op (by rw [hr]; exact hop))
    refine ⟨hform, ?_⟩
    rcases hform with rfl | rfl <;> rfl
  · intro op hop
    unfold on_study_double_click at hop
    rcases ho : q.objectId sid with e | oid <;> simp only [ho] at hop
    · simp at hop
    · rcases hs : q.findStudy oid with e | ostudy <;> rw [hs] at hop
      · simp at hop
        subst hop
        exact ⟨Or.inl rfl, rfl⟩
      · cases ostudy with
        | none =>
          simp at hop
          subst hop
          exact ⟨Or.inl rfl, rfl⟩
        | some study =>
          rcases hse : q.findSeries study.study_uid with e | series_list <;>
            simp only [hse] at hop
          · simp at hop
            rcases hop with rfl | rfl <;> exact ⟨by tauto, rfl⟩
          · cases series_list with
            | nil =>
              simp at hop
              rcases hop with rfl | rfl <;> exact ⟨by tauto, rfl⟩
            | cons first_series restS =>
              rcases hin : q.findInstances first_series.oid with e | insts <;>
                simp only [hin] at hop
              · simp at hop
                rcases hop with rfl | rfl | rfl <;> exact ⟨by tauto, rfl⟩
              · cases insts with
                | nil =>
                  simp at hop
                  rcases hop with rfl | rfl | rfl <;> exact ⟨by tauto, rfl⟩
                | cons i0 irest =>
                  simp at hop
                  rcases hop with rfl | rfl | rfl <;> exact ⟨by tauto, rfl⟩

/-- Witness for C3: the concrete operations of a one-study archive. -/
theorem db_access_read_only_witness :
    ((DbOp.findSorted "studies" "created_at" (-1)).isRead = true) ∧
    ((DbOp.findSorted "series" "series_number" 1).isRead = true) := by
  have h := db_access_read_only (Except.ok []) (fun _ => none) wDbQ "i"
  refine ⟨?_, ?_⟩
  · exact (h.1 (DbOp.findSorted "studies" "created_at" (-1)) (by decide)).2
  · exact (h.2 (DbOp.findSorted "series" "series_number" 1) (by decide)).2

/-- C8: double-clicking a study with at least one series loads only the
series with the lowest series_number — its _id selects exactly the
instances that are materialised — and every other series is ignored. -/
theorem first_series_only :
    ∀ (q : DbQ) (sid : String) (dbSeries : List SeriesRec) (dbInstances : List InstanceRec)
      (oid : String) (study : StudyRec) (first_series : SeriesRec) (restS : List SeriesRec),
      q.objectId sid = Except.ok oid →
      q.findStudy oid = Except.ok (some study) →
      q.findSeries study.study_uid = Except.ok (mongoFindSeriesSorted dbSeries study.study_uid) →
      mongoFindSeriesSorted dbSeries study.study_uid = first_series :: restS →
      q.findInstances first_series.oid =
        Except.ok (mongoFindInstancesSorted dbInstances first_series.oid) →
      ((∀ s ∈ dbSeries, s.study_uid = study.study_uid →
          first_series.series_number ≤ s.series_number) ∧
       (∀ x, x ∈ mongoFindInstancesSorted dbInstances first_series.oid ↔
          (x ∈ dbInstances ∧ x.series_id = first_series.oid)) ∧
       (∀ i0 irest, mongoFindInstancesSorted dbInstances first_series.oid = i0 :: irest →
          (on_study_double_click q sid).prepared =
            some (mongoFindInstancesSorted dbInstances first_series.oid))) := by
  intro q sid dbSeries dbInstances oid study first_series restS ho hs hse hfirst hin
  refine ⟨?_, ?_, ?_⟩
  · intro s hsmem hsuid
    have hfirst2 := hfirst
    unfold mongoFindSeriesSorted at hfirst2
    have hfil : s ∈ dbSeries.filter (fun t => t.study_uid == study.study_uid) :=
      List.mem_filter.mpr ⟨hsmem, by simp [hsuid]⟩
    exact pySortBy_head_min (fun t => t.series_number) _ first_series restS hfirst2 s hfil
  · intro x
    unfold mongoFindInstancesSorted
    rw [mem_pySortBy]
    rw [List.mem_filter]
    simp
  · intro i0 irest hil
    unfold on_study_double_click
    simp only [ho, hs, hse, hfirst, hin, hil]

/-- Witness for C8: two series (numbers 2 and 1) and two instances, one
per series; only series s1's instance is prepared. -/
theorem first_series_only_witness :
    (on_study_double_click
      { objectId := fun s => Except.ok s
        findStudy := fun _ => Except.ok (some wStudy)
        findSeries := fun u => Except.ok (mongoFindSeriesSorted
          [{ oid := "s2", study_uid := "u", series_number := 2 },
           { oid := "s1", study_uid := "u", series_number := 1 }] u)
        findInstances := fun sid => Except.ok (mongoFindInstancesSorted
          [{ series_id := "s1", instance_number := 1, dicom_file := some [1] },
           { series_id := "s2", instance_number := 1, dicom_file := some [2] }] sid) }
      "i").prepared =
    some [{ series_id := "s1", instance_number := 1, dicom_file := some [1] }] := by
  have h := first_series_only
    { objectId := fun s => Except.ok s
      findStudy := fun _ => Except.ok (some wStudy)
      findSeries := fun u => Except.ok (mongoFindSeriesSorted
        [{ oid := "s2", study_uid := "u", series_number := 2 },
         { oid := "s1", study_uid := "u", series_number := 1 }] u)
      findInstances := fun sid => Except.ok (mongoFindInstancesSorted
        [{ series_id := "s1", instance_number := 1, dicom_file := some [1] },
         { series_id := "s2", instance_number := 1, dicom_file := some [2] }] sid) }
    "i"
    [{ oid := "s2", study_uid := "u", series_number := 2 },
     { oid := "s1", study_uid := "u", series_number := 1 }]
    [{ series_id := "s1", instance_number := 1, dicom_file := some [1] },
     { series_id := "s2", instance_number := 1, dicom_file := some [2] }]
    "i" wStudy { oid := "s1", study_uid := "u", series_number := 1 }
    [{ oid := "s2", study_uid := "u", series_number := 2 }]
    rfl rfl rfl (by decide) rfl
  have h3 := h.2.2 { series_id := "s1", instance_number := 1, dicom_file := some [1] } []
    (by decide)
  rw [h3]
  decide

lemma write_loop_names (dir : String) (writeOk : ℕ → Bool) :
    ∀ (l : List InstanceRec) (i : ℕ) (fs : List (String × List ℕ)),
      (write_loop dir writeOk l i fs).2 = (l.enumFrom i).filterMap (fun p =>
        match p.2.dicom_file with
        | some (_ :: _) => if writeOk p.1 then some (instFilename dir p.1) else none
        | _ => none) := by
  intro l
  induction l with
  | nil => intro i fs; simp [write_loop]
  | cons inst rest ih =>
    intro i fs
    unfold write_loop
    rcases hdf : inst.dicom_file with _ | bl
    · simp only [List.enumFrom_cons, List.filterMap_cons, hdf]
      exact ih (i + 1) fs
    · cases bl with
      | nil =>
        simp only [List.enumFrom_cons, List.filterMap_cons, hdf]
        exact ih (i + 1) fs
      | cons b bs =>
        cases hok : writeOk i with
        | true =>
          rcases hw : write_loop dir writeOk rest (i + 1)
            (fsWrite fs (instFilename dir i) (b :: bs)) with ⟨fs2, tfs⟩
          have hih := ih (i + 1) (fsWrite fs (instFilename dir i) (b :: bs))
          rw [hw] at hih
          simp [List.enumFrom_cons, List.filterMap_cons, hdf, hok, hw, hih]
        | false =>
          simp [List.enumFrom_cons, List.filterMap_cons, hdf, hok]
          exact ih (i + 1) fs

lemma write_loop_mem (dir : String) (writeOk : ℕ → Bool) :
    ∀ (l : List InstanceRec) (i : ℕ) (fs : List (String × List ℕ))
      (j : ℕ) (inst : InstanceRec) (b : ℕ) (bs : List ℕ),
      l.get? j = some inst → inst.dicom_file = some (b :: bs) → writeOk (i + j) = true →
      instFilename dir (i + j) ∈ (write_loop dir writeOk l i fs).2 := by
  intro l
  induction l with
  | nil => intro i fs j inst b bs hget; simp at hget
  | cons x rest ih =>
    intro i fs j inst b bs hget hdf hok
    cases j with
    | zero =>
      simp at hget
      subst hget
      unfold write_loop
      rw [hdf]
      simp only [Nat.add_zero] at hok ⊢
      rw [hok]
      rcases hw : write_loop dir writeOk rest (i + 1)
        (fsWrite fs (instFilename dir i) (b :: bs)) with ⟨fs2, tfs⟩
      simp
    | succ j2 =>
      have hget2 : rest.get? j2 = some inst := by simpa using hget
      have harith : i + 1 + j2 = i + (j2 + 1) := by omega
      have hrec := ih (i + 1) fs j2 inst b bs hget2 hdf
        (by rw [harith]; exact hok)
      rw [harith] at hrec
      unfold write_loop
      rcases hxdf : x.dicom_file with _ | bl
      · exact hrec
      · cases bl with
        | nil => exact hrec
        | cons c cs =>
          cases hxok : writeOk i with
          | true =>
            rcases hw : write_loop dir writeOk rest (i + 1)
              (fsWrite fs (instFilename dir i) (c :: cs)) with ⟨fs2, tfs⟩
            have hrec2 := ih (i + 1) (fsWrite fs (instFilename dir i) (c :: cs)) j2 inst b bs
              hget2 hdf (by rw [harith]; exact hok)
            rw [harith, hw] at hrec2
            simp [hw]
            right
            exact hrec2
          | false =>
            simp
            exact hrec

/-- C5: the scratch files created by prepare_dicom_viewer's write loop
are exactly those of the records with a nonempty blob and a successful
write — a skipped record (missing/empty blob, or failing write) does
not prevent any later record from being written. -/
theorem prepare_skip_and_continue :
    ∀ (dir : String) (writeOk : ℕ → Bool) (instances : List InstanceRec)
      (fs0 : List (String × List ℕ)),
      ((write_loop dir writeOk instances 0 fs0).2 =
        instances.enum.filterMap (fun p =>
          match p.2.dicom_file with
          | some (_ :: _) => if writeOk p.1 then some (instFilename dir p.1) else none
          | _ => none) ∧
       (∀ j inst b bs, instances.get? j = some inst →
          inst.dicom_file = some (b :: bs) → writeOk j = true →
          instFilename dir j ∈ (write_loop dir writeOk instances 0 fs0).2)) := by
  intro dir writeOk instances fs0
  constructor
  · exact write_loop_names dir writeOk instances 0 fs0
  · intro j inst b bs hget hdf hok
    have := write_loop_mem dir writeOk instances 0 fs0 j inst b bs hget hdf
      (by simpa using hok)
    simpa using this

/-- Witness for C5: the first record is skipped (missing blob), the
second is still written. -/
theorem prepare_skip_and_continue_witness :
    instFilename "d" 1 ∈ (write_loop "d" (fun _ => true)
      [{ series_id := "s", instance_number := 1, dicom_file := none },
       { series_id := "s", instance_number := 2, dicom_file := some [5] }] 0 []).2 := by
  exact (prepare_skip_and_continue "d" (fun _ => true)
    [{ series_id := "s", instance_number := 1, dicom_file := none },
     { series_id := "s", instance_number := 2, dicom_file := some [5] }] []).2
    1 { series_id := "s", instance_number := 2, dicom_file := some [5] } 5 []
    (by decide) rfl rfl

/-- C6: at a concrete two-instance study, the blobs are written
byte-for-byte to cache/instance_0001.dcm and cache/instance_0002.dcm,
but load_dicom_archive is invoked once per entry of the cache-directory
listing — twice here — because the verification block that calls it is
nested inside the directory-listing loop, not run exactly once. -/
theorem prepare_dicom_viewer_double_load :
    (prepare_dicom_viewer prepOracleOk archiveInstances2 [] (initViewerState "cache")).fs =
      [("cache/instance_0001.dcm", [7]), ("cache/instance_0002.dcm", [8, 9])] ∧
    (prepare_dicom_viewer prepOracleOk archiveInstances2 []
      (initViewerState "cache")).load_calls.length = 2 := by
  exact ⟨rfl, rfl⟩

/-- C4 counterexample: the uniform log-and-surface policy fails on
concrete inputs. An error caught at prepare_dicom_viewer's boundary is
logged but the parent viewer's state (overlay included) is exactly the
initial one and no label is touched, so nothing is surfaced; a failing
refresh and a failing double-click surface a status-label message but
print nothing; a failing upload prints nothing and its message appears
in a modal message box, not in a status label or overlay text. -/
theorem prepare_error_only_logged :
    (prepare_dicom_viewer prepOracleOk
      [{ series_id := "s", instance_number := 1, dicom_file := none }]
      [("cache/old.dcm", [0])] (initViewerState "cache")).logged =
      some "Error preparing DICOM viewer: No valid DICOM files were created" ∧
    (prepare_dicom_viewer prepOracleOk
      [{ series_id := "s", instance_number := 1, dicom_file := none }]
      [("cache/old.dcm", [0])] (initViewerState "cache")).viewer =
      initViewerState "cache" ∧
    (refresh_studies (Except.error "db down") (fun _ => none)).status =
      "Error loading studies: db down" ∧
    (refresh_studies (Except.error "db down") (fun _ => none)).logged = none ∧
    (on_study_double_click { wDbQ with objectId := fun _ => Except.error "bad id" }
      "i").status = some "Error loading study: bad id" ∧
    (on_study_double_click { wDbQ with objectId := fun _ => Except.error "bad id" }
      "i").logged = none ∧
    (upload_dicom_folder (some "f") (Except.error "boom")).message_box =
      some "Upload failed: boom" ∧
    (upload_dicom_folder (some "f") (Except.error "boom")).logged = none := by
  exact ⟨rfl, rfl, rfl, rfl, rfl, rfl, rfl, rfl⟩

/-- C4 (amended): every UI action handler catches exceptions at its
boundary and none escapes. The folder loader logs the exception to the
console and surfaces it in the slice-text overlay; the archive refresh
and study double-click handlers surface a short message in the status
label but never print; the upload handler reports in a modal message
box but never prints; the instance-materialisation handler logs to the
console but surfaces nothing — its boundary adds only the console
line. -/
theorem ui_errors_caught :
    (∀ (listing : String → Except String (List String)) (dcmread : String → Option Dataset)
       (pyFloat : String → Option ℚ) (dims : String → ℕ × ℕ × ℕ) (slMin slMax : ℤ)
       (folder : String) (st : ViewerState) (e : String) (v : ViewerState),
       load_dicom_series_body listing dcmread pyFloat dims slMin slMax folder st =
         Except.error (e, v) →
       load_dicom_series listing dcmread pyFloat dims slMin slMax folder st =
         { v with overlay := "Error: " ++ e, rendered := v.rendered + 1 } ∧
       load_dicom_series_logged listing dcmread pyFloat dims slMin slMax folder st =
         some ("Error loading DICOM series: " ++ e)) ∧
    (∀ (fP : StudyRec → Option PatientRec) (e : String),
       (refresh_studies (Except.error e) fP).status = "Error loading studies: " ++ e) ∧
    (∀ (fP : StudyRec → Option PatientRec) (studies : List StudyRec)
       (rows : List (String × String × String × String)) (ops : List DbOp) (m : String),
       refresh_loop fP studies = (rows, ops, some m) →
       (refresh_studies (Except.ok studies) fP).status = "Error loading studies: " ++ m) ∧
    (∀ (fS : Except String (List StudyRec)) (fP : StudyRec → Option PatientRec),
       (refresh_studies fS fP).logged = none) ∧
    (∀ (q : DbQ) (sid : String),
       ((on_study_double_click q sid).prepared.isSome ∨
        (on_study_double_click q sid).status.isSome) ∧
       (on_study_double_click q sid).logged = none) ∧
    (∀ (folder : String) (up : Except String Unit) (e : String),
       up = Except.error e →
       (upload_dicom_folder (some folder) up).message_box =
         some ("Upload failed: " ++ e)) ∧
    (∀ (folder : Option String) (up : Except String Unit),
       (upload_dicom_folder folder up).logged = none) ∧
    (∀ (o : PrepOracle) (instances : List InstanceRec) (fs0 : List (String × List ℕ))
       (v0 : ViewerState) (fs1 : List (String × List ℕ)) (tfs tfs2 : List String)
       (v2 : ViewerState) (calls : List (List String)) (e : String),
       write_loop v0.app_data_dir o.writeOk instances 0 fs0 = (fs1, tfs) →
       verify_loop o fs1 (fs1.map (fun p => p.1)) tfs v0 [] = (tfs2, v2, calls, some e) →
       prepare_dicom_viewer o instances fs0 v0 =
         { fs := fs1, temp_files := tfs2, load_calls := calls, viewer := v2
           logged := some ("Error preparing DICOM viewer: " ++ e) }) := by
  refine ⟨?_, ?_, ?_, ?_, ?_, ?_, ?_, ?_⟩
  · intro listing dcmread pyFloat dims slMin slMax folder st e v h
    constructor
    · unfold load_dicom_series
      rw [h]
    · unfold load_dicom_series_logged
      rw [h]
  · intro fP e
    rfl
  · intro fP studies rows ops m h
    unfold refresh_studies
    simp only [h]
  · intro fS fP
    unfold refresh_studies
    rcases fS with e | studies
    · rfl
    · rcases hr : refresh_loop fP studies with ⟨rows, ops, err⟩
      simp only [hr]
      cases err <;> rfl
  · intro q sid
    unfold on_study_double_click
    rcases ho : q.objectId sid with e | oid <;> (try simp only [ho])
    · exact ⟨Or.inr rfl, by first | rfl | trivial⟩
    · rcases hs : q.findStudy oid with e | ostudy <;> (try simp only [hs])
      · exact ⟨Or.inr rfl, by first | rfl | trivial⟩
      · cases ostudy with
        | none => exact ⟨Or.inr rfl, by first | rfl | trivial⟩
        | some study =>
          rcases hse : q.findSeries study.study_uid with e | series_list <;>
            (try simp only [hse])
          · exact ⟨Or.inr rfl, by first | rfl | trivial⟩
          · cases series_list with
            | nil => exact ⟨Or.inr rfl, by first | rfl | trivial⟩
            | cons first_series restS =>
              rcases hin : q.findInstances first_series.oid with e | insts <;>
                (try simp only [hin])
              · exact ⟨Or.inr rfl, by first | rfl | trivial⟩
              · cases insts with
                | nil => exact ⟨Or.inr rfl, by first | rfl | trivial⟩
                | cons i0 irest => exact ⟨Or.inl rfl, by first | rfl | trivial⟩
  · intro folder up e h
    subst h
    rfl
  · intro folder up
    rcases folder with _ | f
    · rfl
    · rcases up with e | u <;> rfl
  · intro o instances fs0 v0 fs1 tfs tfs2 v2 calls e hw hv
    unfold prepare_dicom_viewer
    simp only [hw, hv]

/-- Witness for C4: a failing upload reports in the message box without
printing, and a study double-click always ends with a prepared list or
a status message and never prints. -/
theorem ui_errors_caught_witness :
    (upload_dicom_folder (some "f") (Except.error "boom")).message_box =
      some "Upload failed: boom" ∧
    (upload_dicom_folder (some "f") (Except.error "boom")).logged = none ∧
    ((on_study_double_click wDbQ "i").prepared.isSome ∨
     (on_study_double_click wDbQ "i").status.isSome) := by
  refine ⟨?_, ?_, ?_⟩
  · exact ui_errors_caught.2.2.2.2.2.1 "f" (Except.error "boom") "boom" rfl
  · exact ui_errors_caught.2.2.2.2.2.2.1 (some "f") (Except.error "boom")
  · exact (ui_errors_caught.2.2.2.2.1 wDbQ "i").1
